import Mathlib

/-!
Shallow embedding, in Lean 4, of the core of the `semantic-search` repository
(files `src/api_clients.py`, `src/data_processing.py`, `src/search_engine.py`),
together with theorems settling the frozen claims about its specification.

Modelling conventions:
* Python dict-shaped request bodies are modelled by the JSON-like type `JVal`;
  numeric JSON values are rationals (the floats appearing in the code are the
  exact decimals 2.5, 2.0, 10.0, 5.0 and small scores, all exactly
  representable).
* Fallible Python code is modelled with `Except PyError` / `Option`; a raised
  exception that a given code path does not catch shows up as `.error e`.
* The HTTP transport underneath `GenAIClient.generate_embeddings` is a
  parameter (`HttpResult`): either a transport-level error (the
  `requests.exceptions.RequestException` / generic `Exception` branches) or a
  parsed response, namely the list under the `embeddings` key where each item
  either carries a `values` vector or lacks it.
* `pandas.DataFrame`s built from a list of row dicts are modelled as the list
  of rows, in order; the empty `DataFrame` is `[]`.
-/

namespace SemanticSearch

/-- JSON-like values: the shapes of the Python dict/list/str/number literals
from which the Elasticsearch request bodies are built. -/
inductive JVal where
  | jnull : JVal
  | jstr : String → JVal
  | jnum : ℚ → JVal
  | jarr : List JVal → JVal
  | jobj : List (String × JVal) → JVal
deriving Repr

mutual

/-- Decidable equality on `JVal` (hand-written: the automatic derivation does
not support this nested inductive). -/
def decEqJVal : (a b : JVal) → Decidable (a = b)
  | .jnull, .jnull => isTrue rfl
  | .jnull, .jstr _ => isFalse (fun h => JVal.noConfusion h)
  | .jnull, .jnum _ => isFalse (fun h => JVal.noConfusion h)
  | .jnull, .jarr _ => isFalse (fun h => JVal.noConfusion h)
  | .jnull, .jobj _ => isFalse (fun h => JVal.noConfusion h)
  | .jstr _, .jnull => isFalse (fun h => JVal.noConfusion h)
  | .jstr a, .jstr b =>
    match (inferInstance : DecidableEq String) a b with
    | isTrue h => isTrue (by rw [h])
    | isFalse h => isFalse (fun he => h (JVal.jstr.inj he))
  | .jstr _, .jnum _ => isFalse (fun h => JVal.noConfusion h)
  | .jstr _, .jarr _ => isFalse (fun h => JVal.noConfusion h)
  | .jstr _, .jobj _ => isFalse (fun h => JVal.noConfusion h)
  | .jnum _, .jnull => isFalse (fun h => JVal.noConfusion h)
  | .jnum _, .jstr _ => isFalse (fun h => JVal.noConfusion h)
  | .jnum a, .jnum b =>
    match (inferInstance : DecidableEq ℚ) a b with
    | isTrue h => isTrue (by rw [h])
    | isFalse h => isFalse (fun he => h (JVal.jnum.inj he))
  | .jnum _, .jarr _ => isFalse (fun h => JVal.noConfusion h)
  | .jnum _, .jobj _ => isFalse (fun h => JVal.noConfusion h)
  | .jarr _, .jnull => isFalse (fun h => JVal.noConfusion h)
  | .jarr _, .jstr _ => isFalse (fun h => JVal.noConfusion h)
  | .jarr _, .jnum _ => isFalse (fun h => JVal.noConfusion h)
  | .jarr a, .jarr b =>
    match decEqJList a b with
    | isTrue h => isTrue (by rw [h])
    | isFalse h => isFalse (fun he => h (JVal.jarr.inj he))
  | .jarr _, .jobj _ => isFalse (fun h => JVal.noConfusion h)
  | .jobj _, .jnull => isFalse (fun h => JVal.noConfusion h)
  | .jobj _, .jstr _ => isFalse (fun h => JVal.noConfusion h)
  | .jobj _, .jnum _ => isFalse (fun h => JVal.noConfusion h)
  | .jobj _, .jarr _ => isFalse (fun h => JVal.noConfusion h)
  | .jobj a, .jobj b =>
    match decEqJFields a b with
    | isTrue h => isTrue (by rw [h])
    | isFalse h => isFalse (fun he => h (JVal.jobj.inj he))

/-- Decidable equality for lists of `JVal`. -/
def decEqJList : (a b : List JVal) → Decidable (a = b)
  | [], [] => isTrue rfl
  | [], _ :: _ => isFalse (fun h => List.noConfusion h)
  | _ :: _, [] => isFalse (fun h => List.noConfusion h)
  | x :: xs, y :: ys =>
    match decEqJVal x y, decEqJList xs ys with
    | isTrue h1, isTrue h2 => isTrue (by rw [h1, h2])
    | isFalse h1, _ => isFalse (fun h => h1 (List.cons.inj h).1)
    | _, isFalse h2 => isFalse (fun h => h2 (List.cons.inj h).2)

/-- Decidable equality for JSON object field lists. -/
def decEqJFields : (a b : List (String × JVal)) → Decidable (a = b)
  | [], [] => isTrue rfl
  | [], _ :: _ => isFalse (fun h => List.noConfusion h)
  | _ :: _, [] => isFalse (fun h => List.noConfusion h)
  | (k1, v1) :: xs, (k2, v2) :: ys =>
    match (inferInstance : DecidableEq String) k1 k2, decEqJVal v1 v2,
        decEqJFields xs ys with
    | isTrue h0, isTrue h1, isTrue h2 => isTrue (by rw [h0, h1, h2])
    | isFalse h0, _, _ => isFalse (fun h => h0 (Prod.mk.inj (List.cons.inj h).1).1)
    | _, isFalse h1, _ => isFalse (fun h => h1 (Prod.mk.inj (List.cons.inj h).1).2)
    | _, _, isFalse h2 => isFalse (fun h => h2 (List.cons.inj h).2)

end

instance : DecidableEq JVal := decEqJVal

mutual

/-- Whether the JSON value contains, anywhere (at any nesting depth), an
object field whose key is `k`. Used to state that no `knn` clause occurs in a
request body. -/
def JVal.hasKey (k : String) : JVal → Bool
  | .jobj fs => hasKeyFields k fs
  | .jarr xs => hasKeyList k xs
  | _ => false

/-- List version of `JVal.hasKey`. -/
def hasKeyList (k : String) : List JVal → Bool
  | [] => false
  | v :: vs => v.hasKey k || hasKeyList k vs

/-- Field-list version of `JVal.hasKey`. -/
def hasKeyFields (k : String) : List (String × JVal) → Bool
  | [] => false
  | kv :: fs => (kv.1 == k) || kv.2.hasKey k || hasKeyFields k fs

end

/-- Field lookup on a JSON object (first occurrence); `none` on non-objects
and absent keys. -/
def JVal.getField (v : JVal) (k : String) : Option JVal :=
  match v with
  | .jobj fs => lookupField fs k
  | _ => none
where
  lookupField : List (String × JVal) → String → Option JVal
    | [], _ => none
    | kv :: fs, k => if kv.1 = k then some kv.2 else lookupField fs k

/-- Embedding vectors: ordered sequences of (exactly representable) floats. -/
abbrev Emb := List ℚ

/-- The Python exceptions that arise on the embedded code paths. -/
inductive PyError where
  | typeError
  | indexError
  | keyError
deriving DecidableEq, Repr

/-- Outcome of the HTTP POST inside `GenAIClient.generate_embeddings`
(`src/api_clients.py`): either a transport-level failure (a raised
`RequestException`, a non-2xx status via `raise_for_status`, or any other
exception), or a parsed JSON response whose `embeddings` entry is a list of
items, each item either carrying a `values` vector (`some v`) or lacking the
`values` key (`none`). A response without an `embeddings` key parses as
`.ok []` (the code uses `.get with default []`). -/
inductive HttpResult where
  | transportError : HttpResult
  | ok : List (Option Emb) → HttpResult

/-- Embeds `GenAIClient.generate_embeddings` (`src/api_clients.py`, lines
107-138). On an empty `texts` list it returns `[]` immediately, before any
request. Otherwise, a transport error yields `None` (the `RequestException`
branch falls off the end of the function; the generic branch returns `None`
explicitly), and a parsed response yields the comprehension
`[item.values for item in embeddings_data if item has values]`, i.e. the
usable vectors only. `model` and `dimensions` only populate the request
payload and do not influence the result shape. -/
def generate_embeddings (texts : List String) (model : String)
    (dimensions : Nat) (http : HttpResult) : Option (List Emb) :=
  if texts = [] then some []
  else
    match http with
    | .transportError => none
    | .ok items => some (items.filterMap id)

/-- Embeds `SearchService._generate_query_embedding` (`src/search_engine.py`,
lines 22-32), as a function of the value the embedding client returned for
`texts=[term]`. The code evaluates `query_embeddings[0]` unconditionally:
subscripting `None` raises `TypeError`, subscripting the empty list raises
`IndexError`; neither is caught in this method. A present-but-falsy first
vector (the empty list) is turned into `None` (degraded mode), and a
non-empty first vector is returned. -/
def generate_query_embedding (query_embeddings : Option (List Emb)) :
    Except PyError (Option Emb) :=
  match query_embeddings with
  | none => .error .typeError
  | some [] => .error .indexError
  | some (v :: _) => if v = [] then .ok none else .ok (some v)

/-- The request body built by `SearchService.run_lexical_search`
(`src/search_engine.py`, lines 129-141), verbatim from the dict literal. -/
def lexicalBody (term : String) : JVal :=
  .jobj [
    ("query", .jobj [
      ("multi_match", .jobj [
        ("query", .jstr term),
        ("fields", .jarr [.jstr "name^10.0", .jstr "description^5.0"]),
        ("boost", .jnum (5/2))])]),
    ("_source", .jarr [.jstr "name", .jstr "id", .jstr "productUrl"])]

/-- The request body built by `SearchService.run_semantic_search`
(`src/search_engine.py`, lines 42-50), with `field` standing for
`Config.EMBEDDING_FIELD_NAME` and `k` for `Config.SEARCH_RESULTS_LIMIT`. -/
def semanticBody (field : String) (query_vector : Emb) (k : Nat) : JVal :=
  .jobj [
    ("knn", .jobj [
      ("field", .jstr field),
      ("query_vector", .jarr (query_vector.map .jnum)),
      ("k", .jnum k),
      ("num_candidates", .jnum (k * 10))]),
    ("_source", .jarr [.jstr "name", .jstr "id", .jstr "productUrl"])]

/-- The request body built by `SearchService.run_hybrid_search`
(`src/search_engine.py`, lines 75-108): the `should` list always holds the
`multi_match` clause and additionally holds the `knn` clause exactly when a
query embedding is available. -/
def hybridBody (field : String) (term : String) (query_embedding : Option Emb)
    (k : Nat) : JVal :=
  .jobj [
    ("query", .jobj [
      ("bool", .jobj [
        ("should", .jarr
          ([.jobj [
            ("multi_match", .jobj [
              ("query", .jstr term),
              ("fields", .jarr [.jstr "name^10.0", .jstr "description^5.0"]),
              ("boost", .jnum (5/2))])]] ++
          (match query_embedding with
            | some v => [.jobj [
                ("knn", .jobj [
                  ("field", .jstr field),
                  ("query_vector", .jarr (v.map .jnum)),
                  ("k", .jnum k),
                  ("num_candidates", .jnum (k * 10)),
                  ("boost", .jnum 2)])]]
            | none => []))),
        ("minimum_should_match", .jnum 1)])]),
    ("_source", .jarr [.jstr "name", .jstr "id", .jstr "productUrl"])]

/-- The `_source` sub-object of a raw Elasticsearch hit, restricted to the
fields the projection reads via `.get`. -/
structure SourceFields where
  id : Option String
  name : Option String
  productUrl : Option String
deriving DecidableEq, Repr

/-- A raw engine hit as consumed by the result projection. `source` is `none`
when the hit dict lacks the `_source` key (then `hit[_source]` raises), and
`score` is `none` when it lacks `_score`. -/
structure Hit where
  source : Option SourceFields
  score : Option ℚ
deriving DecidableEq, Repr

/-- One row of the projected result `DataFrame`: the keys `Product ID`,
`Product Name`, `Product URL`, `Score` of the dict built per hit. -/
structure ResultRow where
  productId : Option String
  productName : Option String
  productUrl : String
  score : ℚ
deriving DecidableEq, Repr

/-- The per-hit body of the projection comprehension that appears verbatim in
all three of `run_semantic_search`, `run_hybrid_search` and
`run_lexical_search` (`src/search_engine.py`, lines 54-59, 112-117, 145-150):
`hit[_source]` and `hit[_score]` raise `KeyError` when absent, `productUrl`
defaults to `N/A` via `.get`, `id` and `name` default to `None`. -/
def projectHit (hit : Hit) : Except PyError ResultRow :=
  match hit.source, hit.score with
  | some src, some sc =>
    .ok { productId := src.id, productName := src.name,
          productUrl := src.productUrl.getD "N/A", score := sc }
  | _, _ => .error .keyError

/-- The whole projection comprehension, left to right: it is a single
comprehension, so the first hit that raises aborts the entire list. -/
def projectHits : List Hit → Except PyError (List ResultRow)
  | [] => .ok []
  | hit :: rest =>
    match projectHit hit with
    | .error e => .error e
    | .ok row =>
      match projectHits rest with
      | .error e => .error e
      | .ok rows => .ok (row :: rows)

/-- Projection as observed through the surrounding `try`: a raised mapping
error is caught by the enclosing handler, which returns the empty
`DataFrame`. -/
def hitsToRows (hits : List Hit) : List ResultRow :=
  match projectHits hits with
  | .ok rows => rows
  | .error _ => []

/-- Embeds `SearchService.run_semantic_search` (`src/search_engine.py`, lines
34-65). `query_embeddings` is what the embedding client returned for
`[term]`; `engine` is `es_client.perform_search`, which either raises or
returns the raw hits. The result pairs the returned `DataFrame` rows (or the
uncaught exception: the embedding step runs before the `try` block) with the
list of bodies submitted to the engine. -/
def run_semantic_search (field : String) (k : Nat)
    (query_embeddings : Option (List Emb))
    (engine : JVal → Except PyError (List Hit)) :
    Except PyError (List ResultRow) × List JVal :=
  match generate_query_embedding query_embeddings with
  | .error e => (.error e, [])
  | .ok none => (.ok [], [])
  | .ok (some v) =>
    let body := semanticBody field v k
    match engine body with
    | .error _ => (.ok [], [body])
    | .ok hits => (.ok (hitsToRows hits), [body])

/-- Embeds `SearchService.run_hybrid_search` (`src/search_engine.py`, lines
67-123), in the same style as `run_semantic_search`: the embedding step runs
before the `try` block, so its exceptions propagate. -/
def run_hybrid_search (field : String) (term : String) (k : Nat)
    (query_embeddings : Option (List Emb))
    (engine : JVal → Except PyError (List Hit)) :
    Except PyError (List ResultRow) × List JVal :=
  match generate_query_embedding query_embeddings with
  | .error e => (.error e, [])
  | .ok optV =>
    let body := hybridBody field term optV k
    match engine body with
    | .error _ => (.ok [], [body])
    | .ok hits => (.ok (hitsToRows hits), [body])

/-- Embeds `SearchService.run_lexical_search` (`src/search_engine.py`, lines
125-156). -/
def run_lexical_search (term : String)
    (engine : JVal → Except PyError (List Hit)) :
    Except PyError (List ResultRow) × List JVal :=
  let body := lexicalBody term
  match engine body with
  | .error _ => (.ok [], [body])
  | .ok hits => (.ok (hitsToRows hits), [body])

/-- A catalog document, restricted to the fields `add_embeddings_to_products`
reads. `id` present means the dict has an `id` key (modelled as a string,
standing for any hashable identifier); `name` and `description` likewise. -/
structure Product where
  id : Option String
  name : Option String
  description : Option String
deriving DecidableEq, Repr

/-- The text derived for a document by `add_embeddings_to_products`
(`src/data_processing.py`, line 31): the f-string interpolation of
`product.get(name, empty-string)` and `product.get(description, empty-dict)`
separated by one space. Note the second default is the empty dict, whose
str() rendering is the two-character string of an opening and a closing
brace — it is NOT the empty string. -/
def embedding_text (product : Product) : String :=
  (product.name.getD "") ++ " " ++
    (match product.description with
      | some d => d
      | none => "\x7b\x7d")

/-- Python truthiness of `s.strip()`: the skip guard at line 34 of
`src/data_processing.py` keeps a document exactly when its derived text has a
non-whitespace character. -/
def isBlank (s : String) : Bool :=
  s.toList.all Char.isWhitespace

/-- The parallel lists `texts_to_embed` / `product_ids_ordered_for_batch`
(`src/data_processing.py`, lines 29-39), as one list of
(text, `product.get(id, None)`) pairs in input order; blank-text documents
are skipped. -/
def eligible (products : List Product) : List (String × Option String) :=
  products.filterMap (fun product =>
    if isBlank (embedding_text product) then none
    else some (embedding_text product, product.id))

/-- Key type of `product_id_map`: either a present `id` value or, for
documents without an `id` key, the positional index used as the dict
comprehension's fallback (`product.get(id, idx)`). -/
abbrev MapKey := String ⊕ Nat

/-- The state of one document dict held in `product_id_map`: its original
fields plus the embedding field, if one has been attached (the Python code
mutates the dict in place). -/
structure PState where
  base : Product
  emb : Option Emb
deriving DecidableEq, Repr

/-- Association-list lookup for `product_id_map`. -/
def lookupKey : List (MapKey × PState) → MapKey → Option PState
  | [], _ => none
  | kv :: rest, k => if kv.1 = k then some kv.2 else lookupKey rest k

/-- Insertion with Python-dict overwrite semantics (later comprehension
entries replace earlier ones with the same key). -/
def insertKey (m : List (MapKey × PState)) (k : MapKey) (v : PState) :
    List (MapKey × PState) :=
  if (lookupKey m k).isSome then
    m.map (fun kv => if kv.1 = k then (k, v) else kv)
  else m ++ [(k, v)]

/-- The key the dict comprehension at lines 24-25 of
`src/data_processing.py` uses for the document at position `idx`. -/
def keyOf (idx : Nat) (product : Product) : MapKey :=
  match product.id with
  | some s => Sum.inl s
  | none => Sum.inr idx

/-- The dict comprehension `product_id_map = {product.get(id, idx): product
for idx, product in enumerate(products)}`. -/
def buildMap (products : List Product) : List (MapKey × PState) :=
  products.enum.foldl
    (fun m p => insertKey m (keyOf p.1 p.2) { base := p.2, emb := none }) []

/-- In-place attachment of the embedding field
(`product[Config.EMBEDDING_FIELD_NAME] = batch_embeddings[j]`, line 61). -/
def setEmb (m : List (MapKey × PState)) (s : String) (e : Emb) :
    List (MapKey × PState) :=
  m.map (fun kv =>
    if kv.1 = Sum.inl s then (kv.1, { kv.2 with emb := some e }) else kv)

/-- Structural workhorse of `chunks`: repeatedly take a slice of `B` and
drop it, with the fuel bounding the number of steps (structural recursion so
that the function reduces inside the kernel; each step removes at least one
element when `B ≥ 1`, so fuel equal to the list length always suffices). -/
def chunksFuel (B : Nat) : Nat → List α → List (List α)
  | _, [] => []
  | 0, _ :: _ => []
  | fuel + 1, x :: xs => (x :: xs).take B :: chunksFuel B fuel ((x :: xs).drop B)

/-- The slicing loop `range(0, len, B)` with slices `l[i : i + B]`: the list
of successive batches of size at most `B`. For `B = 0` Python would raise
`ValueError` in `range`; here the result is `[]` (the claims only concern
`B ≥ 1`). -/
def chunks (B : Nat) (l : List α) : List (List α) :=
  if B = 0 then [] else chunksFuel B l.length l

/-- Mutable state of the backfill loop: the (aliased) document dicts reached
through `product_id_map`, and the sequence of ids appended to
`processed_products`. Python appends dict references, so an entry's final
content is the dict's final state in the map; `processed` therefore records
the keys appended, and the output materialises them from the final map. Only
`some`-id documents ever pass the `is not None` guards, so the recorded keys
are plain strings. -/
structure BState where
  map : List (MapKey × PState)
  processed : List String
deriving Repr

/-- One iteration of the per-batch success loop (`src/data_processing.py`,
lines 58-65): for the pair of a (text, original-id) batch entry and its
vector, attach the vector and append the dict when the id is not `None` and
is a key of the map; otherwise log and move on. -/
def stepSuccess (st : BState) (entry : (String × Option String) × Emb) :
    BState :=
  match entry.1.2 with
  | none => st
  | some s =>
    if (lookupKey st.map (Sum.inl s)).isSome then
      { map := setEmb st.map s entry.2, processed := st.processed ++ [s] }
    else st

/-- One iteration of the per-batch soft-failure loop
(`src/data_processing.py`, lines 72-74): append the original dict (no
embedding attached) when the id is not `None` and is a key of the map. -/
def stepFailure (st : BState) (entry : String × Option String) : BState :=
  match entry.2 with
  | none => st
  | some s =>
    if (lookupKey st.map (Sum.inl s)).isSome then
      { st with processed := st.processed ++ [s] }
    else st

/-- Processing of one batch (`src/data_processing.py`, lines 51-74): the
guard `batch_embeddings and len(batch_embeddings) == len(batch_texts)`
selects the success loop, every other outcome (a `None` return, an empty
list, a mismatched count) the soft-failure loop. -/
def processBatch (resp : Option (List Emb))
    (batch : List (String × Option String)) (st : BState) : BState :=
  match resp with
  | some embs =>
    if embs ≠ [] ∧ embs.length = batch.length then
      (batch.zip embs).foldl stepSuccess st
    else batch.foldl stepFailure st
  | none => batch.foldl stepFailure st

/-- Embeds `add_embeddings_to_products` (`src/data_processing.py`, lines
10-77). `B` is `Config.EMBEDDING_BATCH_SIZE`, `model` and `dimensions` the
embedding configuration, and `http i` the transport outcome of the i-th
`generate_embeddings` call. The returned list is `processed_products`: the
final states of the dicts appended during processing, in append order. -/
def add_embeddings_to_products (products : List Product) (B : Nat)
    (model : String) (dimensions : Nat) (http : Nat → HttpResult) :
    List PState :=
  let st0 : BState := { map := buildMap products, processed := [] }
  let batches := chunks B (eligible products)
  let stF := batches.enum.foldl
    (fun st ib =>
      processBatch
        (generate_embeddings (ib.2.map Prod.fst) model dimensions (http ib.1))
        ib.2 st)
    st0
  stF.processed.filterMap (fun s => lookupKey stF.map (Sum.inl s))

/-- Number of `generate_embeddings` calls the backfill loop performs: one per
iteration of `range(0, len(texts_to_embed), B)`, i.e. one per batch. -/
def embeddingCallCount (products : List Product) (B : Nat) : Nat :=
  (chunks B (eligible products)).length

/-- The id that one iteration of the soft-failure loop appends for a batch
entry, relative to map `m`: the entry's recorded original id, provided it is
not `None` and is a key of the map. -/
def failKeep (m : List (MapKey × PState)) (entry : String × Option String) :
    Option String :=
  match entry.2 with
  | none => none
  | some s => if (lookupKey m (Sum.inl s)).isSome then some s else none

/-- Test fixture: a well-formed hit source with no `productUrl`. -/
def mouseSource : SourceFields :=
  { id := some "1", name := some "mouse", productUrl := none }

/-- Test fixture: a well-formed hit scoring 9.2. -/
def goodHit : Hit :=
  { source := some mouseSource, score := some (46/5) }

/-- Test fixture: a malformed hit (its dict lacks `_source`) scoring 4.1. -/
def badHit : Hit :=
  { source := none, score := some (41/10) }

/-- Test fixture: the row `goodHit` projects to. -/
def mouseRow : ResultRow :=
  { productId := some "1", productName := some "mouse",
    productUrl := "N/A", score := 46/5 }

end SemanticSearch

namespace SemanticSearch

/-- Helper: the soft-failure loop leaves the document map untouched and
appends exactly the ids `failKeep` selects, in batch order. -/
theorem foldl_stepFailure_spec (batch : List (String × Option String))
    (st : BState) :
    (batch.foldl stepFailure st).map = st.map ∧
    (batch.foldl stepFailure st).processed =
      st.processed ++ batch.filterMap (failKeep st.map) := by
  induction batch generalizing st with
  | nil => simp
  | cons e rest ih =>
    have hstep : (stepFailure st e).map = st.map ∧
        (stepFailure st e).processed =
          st.processed ++ (failKeep st.map e).toList := by
      cases he : e.2 with
      | none => simp [stepFailure, failKeep, he]
      | some s =>
        by_cases hm : (lookupKey st.map (Sum.inl s)).isSome
        · simp [stepFailure, failKeep, he, hm]
        · simp [stepFailure, failKeep, he, hm]
    obtain ⟨hm1, hp1⟩ := hstep
    obtain ⟨hm2, hp2⟩ := ih (stepFailure st e)
    constructor
    · simpa [hm1] using hm2
    · rw [List.foldl_cons] at *
      rw [hp2, hp1, hm1]
      cases he : e.2 with
      | none => simp [failKeep, he]
      | some s =>
        by_cases hm : (lookupKey st.map (Sum.inl s)).isSome
        · simp [failKeep, he, hm]
        · simp [failKeep, he, hm]

/-- Helper: with enough fuel, the fuelled slicer produces the ceiling of the
list length divided by the batch size. -/
theorem chunksFuel_length {α : Type} (B : Nat) (hB : 1 ≤ B) :
    ∀ (fuel : Nat) (l : List α), l.length ≤ fuel →
      (chunksFuel B fuel l).length = (l.length + B - 1) / B := by
  intro fuel
  induction fuel with
  | zero =>
    intro l hl
    match l with
    | [] =>
      simp only [chunksFuel, List.length_nil]
      rw [Nat.div_eq_of_lt (by omega)]
    | x :: xs => simp at hl
  | succ fuel ih =>
    intro l hl
    match l with
    | [] =>
      simp only [chunksFuel, List.length_nil]
      rw [Nat.div_eq_of_lt (by omega)]
    | x :: xs =>
      have hdl : ((x :: xs).drop B).length = (x :: xs).length - B := by
        rw [List.length_drop]
      have hfit : ((x :: xs).drop B).length ≤ fuel := by
        rw [hdl]
        simp only [List.length_cons] at hl ⊢
        omega
      have hrec := ih ((x :: xs).drop B) hfit
      simp only [chunksFuel, List.length_cons]
      rw [hrec, hdl]
      simp only [List.length_cons]
      set n := xs.length + 1 with hn
      have hn1 : 1 ≤ n := by omega
      have hkey : n + B - 1 = (n - 1) + B := by omega
      rw [hkey, Nat.add_div_right _ (by omega : 0 < B)]
      rcases le_or_lt n B with hc | hc
      · have h0 : n - B = 0 := by omega
        rw [h0]
        rw [Nat.div_eq_of_lt (by omega : 0 + B - 1 < B)]
        rw [Nat.div_eq_of_lt (by omega : n - 1 < B)]
      · have h1 : n - B + B - 1 = (n - B - 1) + B := by omega
        rw [h1, Nat.add_div_right _ (by omega : 0 < B)]
        have h2 : n - 1 = (n - B - 1) + B := by omega
        rw [h2, Nat.add_div_right _ (by omega : 0 < B)]

/-- Helper: the number of batches produced by the slicing loop is the
ceiling of the list length divided by the batch size. -/
theorem chunks_length {α : Type} (B : Nat) (hB : 1 ≤ B) (l : List α) :
    (chunks B l).length = (l.length + B - 1) / B := by
  unfold chunks
  rw [if_neg (by omega : ¬ B = 0)]
  exact chunksFuel_length B hB l.length l (le_refl _)

/-- Helper: projecting a list of fully well-formed hits succeeds and yields
one row per hit, in order, with the `N/A` default applied. -/
theorem projectHits_allok (l : List (SourceFields × ℚ)) :
    projectHits (l.map (fun p => { source := some p.1, score := some p.2 })) =
      .ok (l.map (fun p =>
        { productId := p.1.id, productName := p.1.name,
          productUrl := p.1.productUrl.getD "N/A", score := p.2 })) := by
  induction l with
  | nil => rfl
  | cons p rest ih => simp [projectHits, projectHit, ih]

/-- Helper: a single raising hit anywhere in the list makes the whole
projection comprehension raise. -/
theorem projectHits_error_of_mem (hits : List Hit) (h : Hit)
    (hmem : h ∈ hits) (herr : projectHit h = .error .keyError) :
    ∃ e, projectHits hits = .error e := by
  induction hits with
  | nil => cases hmem
  | cons x rest ih =>
    rcases List.mem_cons.mp hmem with hx | hx
    · subst hx
      exact ⟨.keyError, by simp [projectHits, herr]⟩
    · cases hpx : projectHit x with
      | error e => exact ⟨e, by simp [projectHits, hpx]⟩
      | ok row =>
        obtain ⟨e, he⟩ := ih hx
        exact ⟨e, by simp [projectHits, hpx, he]⟩

/-- C1 (counterexample): for the term `wireless mouse` with no query vector
available, the body built by the hybrid search is NOT identical to the body
built by the lexical search — the hybrid body wraps the clause in a
`bool`/`should` with `minimum_should_match`, the lexical body does not. -/
theorem C1_counterexample :
    hybridBody "productEmbedding" "wireless mouse" none 5 ≠
      lexicalBody "wireless mouse" := by
  decide

/-- C1 (amended): whenever the query-embedding step yields no usable vector,
the degraded hybrid body consists of exactly the lexical `multi_match`
clause — same fields `name^10.0` and `description^5.0`, same boost 5/2 —
as the sole `should` clause of a `bool` query with `minimum_should_match` 1,
and no `knn` key occurs anywhere in it; the body is however not identical to
the lexical body. Moreover, when the embedding client fails outright
(returns `None`), the hybrid search raises `TypeError` before building any
body. -/
theorem C1_degraded_hybrid_lexical_clause (field term : String) (k : Nat) :
    hybridBody field term none k =
      .jobj [
        ("query", .jobj [
          ("bool", .jobj [
            ("should", .jarr [.jobj [
              ("multi_match", .jobj [
                ("query", .jstr term),
                ("fields", .jarr [.jstr "name^10.0", .jstr "description^5.0"]),
                ("boost", .jnum (5/2))])]]),
            ("minimum_should_match", .jnum 1)])]),
        ("_source", .jarr [.jstr "name", .jstr "id", .jstr "productUrl"])] ∧
    lexicalBody term =
      .jobj [
        ("query", .jobj [
          ("multi_match", .jobj [
            ("query", .jstr term),
            ("fields", .jarr [.jstr "name^10.0", .jstr "description^5.0"]),
            ("boost", .jnum (5/2))])]),
        ("_source", .jarr [.jstr "name", .jstr "id", .jstr "productUrl"])] ∧
    (hybridBody field term none k).hasKey "knn" = false ∧
    (∀ (engine : JVal → Except PyError (List Hit)),
      run_hybrid_search field term k none engine = (.error .typeError, [])) :=
  ⟨rfl, rfl, rfl, fun _ => rfl⟩

/-- C2: the semantic search raises an uncaught `TypeError` when the
embedding client reports a failure (`None` return), and an uncaught
`IndexError` when the client returns an empty list; in both cases the engine
is not invoked. Only when the client returns a present-but-empty first
vector does the search degrade gracefully to the empty result set. This
refutes the claim that every embedding-generation failure yields an empty
result set without an unhandled error. -/
theorem C2_embedding_failure_semantic (field : String) (k : Nat)
    (engine : JVal → Except PyError (List Hit)) :
    run_semantic_search field k none engine = (.error .typeError, []) ∧
    run_semantic_search field k (some []) engine = (.error .indexError, []) ∧
    run_semantic_search field k (some [[]]) engine = (.ok [], []) :=
  ⟨rfl, rfl, rfl⟩

/-- C3 (counterexample): a batch consisting of one document without an `id`
field whose embedding call fails produces an empty output — the affected
document is NOT added to the output, refuting that every document of a
failed batch is still added. -/
theorem C3_counterexample :
    add_embeddings_to_products
      [{ id := none, name := some "a", description := some "b" }] 10 "m" 512
      (fun _ => .transportError) = [] ∧
    embeddingCallCount
      [{ id := none, name := some "a", description := some "b" }] 10 = 1 := by
  decide

/-- C3 (amended): when a batch call fails, returns an empty list, or returns
a vector count different from the batch's text count, the batch runs the
soft-failure loop; that loop attaches no embedding (the map is untouched)
and appends exactly those documents of the batch that carry an `id` (in
batch order), and processing continues with the next batch — demonstrated
concretely by a 4-document catalog with batch size 3 whose first batch of 3
texts is answered with only 2 vectors (all 3 id-bearing documents appear
without the embedding field) while the second batch still succeeds. -/
theorem C3_soft_failure_keeps_id_bearing_docs :
    (∀ (st : BState) (batch : List (String × Option String))
        (embs : List Emb), embs = [] ∨ embs.length ≠ batch.length →
        processBatch (some embs) batch st = batch.foldl stepFailure st) ∧
    (∀ (st : BState) (batch : List (String × Option String)),
        processBatch none batch st = batch.foldl stepFailure st) ∧
    (∀ (st : BState) (batch : List (String × Option String)),
        (batch.foldl stepFailure st).map = st.map ∧
        (batch.foldl stepFailure st).processed =
          st.processed ++ batch.filterMap (failKeep st.map)) ∧
    add_embeddings_to_products
      [{ id := some "1", name := some "a", description := some "w" },
       { id := some "2", name := some "b", description := some "x" },
       { id := some "3", name := some "c", description := some "y" },
       { id := some "4", name := some "d", description := some "z" }] 3 "m" 512
      (fun i => if i = 0 then .ok [some [1], some [2]] else .ok [some [9]]) =
      [{ base := { id := some "1", name := some "a", description := some "w" },
         emb := none },
       { base := { id := some "2", name := some "b", description := some "x" },
         emb := none },
       { base := { id := some "3", name := some "c", description := some "y" },
         emb := none },
       { base := { id := some "4", name := some "d", description := some "z" },
         emb := some [9] }] := by
  refine ⟨?_, ?_, ?_, ?_⟩
  · intro st batch embs h
    simp only [processBatch]
    rw [if_neg]
    rcases h with h | h
    · exact fun hc => hc.1 h
    · exact fun hc => h hc.2
  · intro st batch
    rfl
  · intro st batch
    exact foldl_stepFailure_spec batch st
  · decide

/-- C3 (witness for the amended theorem): the hypothesis of its first
conjunct discharged at a concrete mismatched batch — three texts answered
with two vectors. -/
theorem C3_soft_failure_witness :
    processBatch (some [[(1 : ℚ)], [2]])
      [("a w", some "1"), ("b x", some "2"), ("c y", some "3")]
      { map := [], processed := [] } =
    [("a w", some "1"), ("b x", some "2"), ("c y", some "3")].foldl
      stepFailure { map := [], processed := [] } :=
  C3_soft_failure_keeps_id_bearing_docs.1
    { map := [], processed := [] }
    [("a w", some "1"), ("b x", some "2"), ("c y", some "3")]
    [[(1 : ℚ)], [2]] (Or.inr (by decide))

/-- C4: a document lacking an `id` field is tracked in `product_id_map`
under its positional index, but the per-batch id list records `None` for it;
the `is not None` guard therefore drops it even when its batch call succeeds
with exactly one vector — the document never reaches the output, so its
result is not re-associated with it. -/
theorem C4_missing_id_document_dropped :
    buildMap [{ id := none, name := some "a", description := some "b" }] =
      [(Sum.inr 0,
        { base := { id := none, name := some "a", description := some "b" },
          emb := none })] ∧
    eligible [{ id := none, name := some "a", description := some "b" }] =
      [("a b", none)] ∧
    add_embeddings_to_products
      [{ id := none, name := some "a", description := some "b" }] 10 "m" 512
      (fun _ => .ok [some [1]]) = [] := by
  decide

/-- C5: for a document with neither `name` nor `description`, the derived
embedding text is a space followed by the str() rendering of the empty-dict
default — which is not whitespace-only — so the document is NOT skipped: it
is kept as an eligible text and triggers an embedding call. -/
theorem C5_missing_fields_not_skipped :
    embedding_text { id := some "1", name := none, description := none } =
      " \x7b\x7d" ∧
    isBlank " \x7b\x7d" = false ∧
    eligible [{ id := some "1", name := none, description := none }] =
      [(" \x7b\x7d", some "1")] ∧
    embeddingCallCount
      [{ id := some "1", name := none, description := none }] 10 = 1 := by
  decide

/-- C6 (counterexample): with one well-formed hit and one hit lacking its
`_source`, the projection drops the ENTIRE result set (the comprehension
raises inside the single `try`), not just the offending hit — the
well-formed hit's row, produced when that hit is projected alone, is absent. -/
theorem C6_counterexample :
    hitsToRows [goodHit, badHit] = [] ∧
    hitsToRows [goodHit] = [mouseRow] :=
  ⟨rfl, rfl⟩

/-- C6 (amended): a list of well-formed hits is projected to one
`{productId, productName, productUrl, score}` row per hit, in the engine's
order, with `N/A` substituted for an absent `productUrl`; but a mapping
error on any individual hit makes the whole result set for that query empty,
rather than dropping only that hit. -/
theorem C6_projection_amended :
    (∀ (l : List (SourceFields × ℚ)),
      hitsToRows (l.map (fun p => { source := some p.1, score := some p.2 })) =
        l.map (fun p =>
          { productId := p.1.id, productName := p.1.name,
            productUrl := p.1.productUrl.getD "N/A", score := p.2 })) ∧
    (∀ (hits : List Hit) (h : Hit), h ∈ hits →
      projectHit h = .error .keyError → hitsToRows hits = []) := by
  constructor
  · intro l
    unfold hitsToRows
    rw [projectHits_allok]
  · intro hits h hmem herr
    unfold hitsToRows
    obtain ⟨e, he⟩ := projectHits_error_of_mem hits h hmem herr
    rw [he]

/-- C6 (witness): both conjuncts of the amended theorem instantiated — a
single well-formed hit with absent `productUrl` projects to its row with
`N/A`, and a single source-less hit empties the result set. -/
theorem C6_projection_witness :
    hitsToRows [goodHit] = [mouseRow] ∧
    hitsToRows [badHit] = [] :=
  ⟨by
    have h := C6_projection_amended.1 [(mouseSource, 46/5)]
    simpa [goodHit, mouseRow, mouseSource] using h,
   C6_projection_amended.2 [badHit] badHit (by simp) rfl⟩

/-- C7 (counterexample): a response carrying two items of which only one has
a `values` vector makes the client return a SHORTER partial list as a
success, not a failure marker. -/
theorem C7_counterexample :
    generate_embeddings ["a", "b"] "m" 512 (.ok [some [1], none]) =
      some [[1]] ∧
    ([[(1 : ℚ)]] : List Emb).length ≠ (["a", "b"] : List String).length := by
  decide

/-- C7 (amended): for a non-empty input list, a transport error is reported
as a failure (`None`), while any parsed response is reported as a success
consisting of exactly the usable vectors it carries, in response order — the
client itself performs no length check against the input, so the success
list can be shorter (or longer) than the input list. -/
theorem C7_client_contract_amended (texts : List String) (model : String)
    (dimensions : Nat) (h : texts ≠ []) :
    generate_embeddings texts model dimensions .transportError = none ∧
    ∀ (items : List (Option Emb)),
      generate_embeddings texts model dimensions (.ok items) =
        some (items.filterMap id) := by
  refine ⟨?_, fun items => ?_⟩ <;> simp [generate_embeddings, h]

/-- C7 (witness): the amended theorem at the one-text input, its response
instance evaluated at a partially usable response. -/
theorem C7_client_contract_witness :
    generate_embeddings ["a"] "m" 512 .transportError = none ∧
    generate_embeddings ["a"] "m" 512 (.ok [some [1], none]) = some [[1]] :=
  ⟨(C7_client_contract_amended ["a"] "m" 512 (by decide)).1,
   by
    simpa using
      (C7_client_contract_amended ["a"] "m" 512 (by decide)).2
        [some [1], none]⟩

/-- C8: for every batch size at least 1, the number of embedding calls the
backfill performs equals the ceiling of E divided by B, where E is the
number of documents whose derived embedding text is not whitespace-only. -/
theorem C8_call_count_is_ceil (products : List Product) (B : Nat)
    (hB : 1 ≤ B) :
    embeddingCallCount products B =
      ((eligible products).length + B - 1) / B :=
  chunks_length B hB (eligible products)

/-- C8 (witness): three eligible documents with batch size 2 give
ceil(3/2) = 2 calls. -/
theorem C8_call_count_witness :
    1 ≤ 2 ∧
    embeddingCallCount
      [{ id := some "1", name := some "a", description := some "p" },
       { id := some "2", name := some "b", description := some "q" },
       { id := some "3", name := some "c", description := some "r" }] 2 =
      ((eligible
        [{ id := some "1", name := some "a", description := some "p" },
         { id := some "2", name := some "b", description := some "q" },
         { id := some "3", name := some "c", description := some "r" }]).length
        + 2 - 1) / 2 :=
  ⟨by decide,
   C8_call_count_is_ceil
     [{ id := some "1", name := some "a", description := some "p" },
      { id := some "2", name := some "b", description := some "q" },
      { id := some "3", name := some "c", description := some "r" }] 2
     (by decide)⟩

/-- C9: for every available query vector and every configured result limit,
the semantic body's `knn` clause requests exactly `k` results and examines
exactly `k * 10` candidates; in particular for `k = 5` the requested size is
5 and the candidate count is 50. -/
theorem C9_semantic_overfetch (field : String) (v : Emb) (k : Nat) :
    ((semanticBody field v k).getField "knn").bind
      (fun o => o.getField "k") = some (.jnum k) ∧
    ((semanticBody field v k).getField "knn").bind
      (fun o => o.getField "num_candidates") = some (.jnum (k * 10)) ∧
    ((semanticBody field v 5).getField "knn").bind
      (fun o => o.getField "k") = some (.jnum 5) ∧
    ((semanticBody field v 5).getField "knn").bind
      (fun o => o.getField "num_candidates") = some (.jnum 50) := by
  refine ⟨?_, ?_, ?_, ?_⟩ <;>
    simp [semanticBody, JVal.getField, JVal.getField.lookupField] <;>
    norm_num

/-- C10: the embedding client returns the empty list as a success on an
empty text list, whatever the model, dimensionality and transport outcome;
consequently a catalog with zero embedding-eligible documents completes the
backfill with zero embedding calls and an empty output. -/
theorem C10_empty_inputs :
    (∀ (model : String) (dimensions : Nat) (http : HttpResult),
      generate_embeddings [] model dimensions http = some []) ∧
    (∀ (products : List Product) (B : Nat) (model : String)
        (dimensions : Nat) (http : Nat → HttpResult),
      eligible products = [] →
      add_embeddings_to_products products B model dimensions http = [] ∧
      embeddingCallCount products B = 0) := by
  constructor
  · intro model dimensions http
    rfl
  · intro products B model dimensions http h
    have hb : chunks B (eligible products) = [] := by
      rw [h]
      unfold chunks
      split <;> rfl
    constructor
    · simp [add_embeddings_to_products, hb]
    · simp [embeddingCallCount, hb]

/-- C10 (witness): the client conjunct at a transport error, and the
catalog conjunct at a one-document catalog whose document has present but
empty `name` and `description` (so zero documents are eligible). -/
theorem C10_empty_inputs_witness :
    generate_embeddings [] "m" 512 .transportError = some [] ∧
    add_embeddings_to_products
      [{ id := some "1", name := some "", description := some "" }] 7 "m" 512
      (fun _ => .transportError) = [] ∧
    embeddingCallCount
      [{ id := some "1", name := some "", description := some "" }] 7 = 0 :=
  ⟨C10_empty_inputs.1 "m" 512 .transportError,
   (C10_empty_inputs.2
     [{ id := some "1", name := some "", description := some "" }] 7 "m" 512
     (fun _ => .transportError) (by decide)).1,
   (C10_empty_inputs.2
     [{ id := some "1", name := some "", description := some "" }] 7 "m" 512
     (fun _ => .transportError) (by decide)).2⟩

end SemanticSearch
